import Mathlib

/-!
Verification of the core client and polling logic of the Rohlik Homey app
(`lib/RohlikClient.js`, `drivers/rohlik/device.js`, and the alternate
device/driver sources). JavaScript functions are shallowly embedded as pure
Lean functions; instance fields become explicit state records, timers become
lists of live interval ids, and `throw`/`catch` becomes explicit error
values threaded through results.
-/

namespace Rohlik

/-! ## Country table and constructor (RohlikClient.js lines 4-24) -/

/-- The `COUNTRY_URLS` object: maps an (upper-case) country code to a base URL;
lookup of any other key yields `none` (JS `undefined`). -/
def COUNTRY_URLS (c : String) : Option String :=
  if c = "CZ" then some "https://www.rohlik.cz"
  else if c = "DE" then some "https://www.knuspr.de"
  else if c = "AT" then some "https://www.gurkerl.at"
  else if c = "HU" then some "https://www.kifli.hu"
  else if c = "RO" then some "https://www.sezamo.ro"
  else none

/-- ASCII upper-casing of one character, as JS `toUpperCase` acts on the
letters of the supported region codes. -/
def charToUpper (c : Char) : Char :=
  if 97 ≤ c.toNat ∧ c.toNat ≤ 122 then Char.ofNat (c.toNat - 32) else c

/-- The `country?.toUpperCase()` conversion (ASCII letters, which covers
every key of `COUNTRY_URLS`). -/
def toUpperCase (s : String) : String :=
  ⟨s.data.map charToUpper⟩

/-- Constructor line `this.baseUrl = COUNTRY_URLS[country?.toUpperCase()] || COUNTRY_URLS.CZ`:
`country` may be absent (`none`); a missing or unknown key falls back to the
CZ URL (the URL strings are non-empty, hence truthy, so `||` only fires on
`undefined`). -/
def baseUrlFor (country : Option String) : String :=
  match country with
  | none => "https://www.rohlik.cz"
  | some c => (COUNTRY_URLS (toUpperCase c)).getD "https://www.rohlik.cz"

/-! ## Session state (RohlikClient.js lines 19-22, 220-223) -/

/-- The session-relevant instance fields of `RohlikClient`. -/
structure Session where
  sessionCookies : String
  userId : Option String
  addressId : Option String
  deriving Repr, DecidableEq

/-- Constructor field initialisation: `this.sessionCookies = ''`,
`this.userId = null`, `this.addressId = null`. -/
def initialSession : Session :=
  { sessionCookies := "", userId := none, addressId := none }

/-! ## Write-if-changed capability updates (device.js lines 236-244) -/

/-- A capability value as the host platform stores it: string, number,
boolean, or `null` when never set.  `getCapabilityValue` on an unset
capability returns `null`. -/
inductive CapValue where
  | str (s : String)
  | num (n : Int)
  | boolean (b : Bool)
  | null
  deriving Repr, DecidableEq

/-- The capability store: last value per capability id, with `null` for a
capability never written. -/
def getCapabilityValue (store : List (String × CapValue)) (capabilityId : String) :
    CapValue :=
  match store.lookup capabilityId with
  | some v => v
  | none => .null

/-- Embeds `setCapabilityValue`: record the value for the capability. -/
def setCapabilityValue (store : List (String × CapValue)) (capabilityId : String)
    (value : CapValue) : List (String × CapValue) :=
  (capabilityId, value) :: store.filter (fun p => p.1 ≠ capabilityId)

/-- Embeds `updateCapabilityValue` (lines 236-244): read the current value and call
`setCapabilityValue` only when it differs (`currentValue !== value`).
Returns the new store and the number of downstream writes performed. -/
def updateCapabilityValue (store : List (String × CapValue)) (capabilityId : String)
    (value : CapValue) : List (String × CapValue) × Nat :=
  let currentValue := getCapabilityValue store capabilityId
  if currentValue ≠ value then
    (setCapabilityValue store capabilityId value, 1)
  else
    (store, 0)

/-! ## Remove-by-product-id flow action (device.js lines 472-483,
RohlikClient.js lines 178-184) -/

/-- A cart line as produced by `getCartContent`: `id` is the product id
(`String(item.productId)`), `cart_item_id` the cart line id
(`String(item.orderFieldId)`). -/
structure CartItem where
  id : String
  cart_item_id : String
  deriving Repr, DecidableEq

/-- Errors surfaced by the remove-by-id flow action. -/
inductive RemoveErr where
  | noProductId       -- `throw new Error('No product ID provided')`
  | notFound          -- `throw new Error('Product not found in cart')`
  deriving Repr, DecidableEq

/-- Embeds `onFlowActionRemoveItemById` (device.js lines 472-483): guard the
argument, read the current cart, find the first line whose product id
matches (`i.id === args.product_id`; the `String(...)` coercion is the
identity on a string argument), fail when absent, otherwise issue exactly
one `removeFromCart(item.cart_item_id)` delete call.  The second component
lists the line ids passed to delete calls, in order. -/
def onFlowActionRemoveItemById (cartItems : List CartItem) (product_id : String) :
    Except RemoveErr Unit × List String :=
  if product_id = "" then (.error .noProductId, [])
  else
    match cartItems.find? (fun i => i.id = product_id) with
    | none => (.error .notFound, [])
    | some item => (.ok (), [item.cart_item_id])

/-! ## Authenticated request executor (RohlikClient.js lines 37-93) -/

/-- Test `response.status === 401 || response.status === 403`. -/
def isAuthStatus (status : Nat) : Bool :=
  status = 401 || status = 403

/-- Property `response.ok` of the fetch API: status in the range 200-299. -/
def respOk (status : Nat) : Bool :=
  200 ≤ status && status < 300

/-- Possible terminations of one `makeRequest` call. -/
inductive ReqOutcome where
  | success (status : Nat)     -- `return jsonData` (body abstracted by status)
  | authError                  -- `throw new Error('Unauthorized after retry')`
  | httpError (status : Nat)   -- `throw new Error('HTTP <status>: ...')`
  | loginFailed                -- an error thrown by `this.login()` propagates
  deriving Repr, DecidableEq

/-- Embeds `makeRequest(url, options, isRetry)` (lines 37-93), driven by the
sequence of statuses the server returns for the successive fetches of this
call (head = next fetch).  `loginOk` tells whether `this.login()` succeeds
when invoked.  Returns `none` when the status sequence is exhausted (cannot
happen with at least two statuses supplied), otherwise the outcome together
with the number of `login()` invocations performed. -/
def makeRequest (loginOk : Bool) : List Nat → Bool → Option (ReqOutcome × Nat)
  | [], _ => none
  | status :: rest, isRetry =>
    if isAuthStatus status then
      if !isRetry then
        if loginOk then
          match makeRequest loginOk rest true with
          | none => none
          | some (o, n) => some (o, n + 1)
        else some (.loginFailed, 1)
      else some (.authError, 0)
    else if !(respOk status) then some (.httpError status, 0)
    else some (.success status, 0)

/-! ## Login (RohlikClient.js lines 95-139) -/

/-- The fields of the parsed login response body that `login()` reads:
`data.messages?.[0]?.content`, `data.message`, `data.data?.user?.id`,
`data.data?.address?.id`. -/
structure LoginBody where
  messagesHeadContent : Option String
  message : Option String
  dataUserId : Option String
  dataAddressId : Option String
  deriving Repr, DecidableEq

/-- Errors thrown by `login()`. -/
inductive LoginErr where
  | rejected (msg : String)    -- `Login failed: <upstream message>`
  | noUserId                   -- `Login succeeded but no User ID returned.`
  deriving Repr, DecidableEq

/-- JS truthiness of a possibly-missing string: `undefined`/`null` and the
empty string are falsy. -/
def truthyStr : Option String → Bool
  | none => false
  | some s => s ≠ ""

/-- Evaluates `a || b` on possibly-missing strings, as in
`data.messages?.[0]?.content || data.message || 'Login failed'`. -/
def orElseStr (a : Option String) (b : String) : String :=
  if truthyStr a then a.getD "" else b

/-- Embeds `login()` (lines 95-139): after the rate-limited fetch, overwrite the
cookie header when a `set-cookie` header is present, test
`status === 200 || status === 202`; on rejection throw with the upstream
message (user/address ids untouched); on acceptance store
`this.userId = data.data?.user?.id` and `this.addressId = data.data?.address?.id`,
then throw when the stored user id is falsy.  Returns the error (if any)
together with the session as mutated up to the throw. -/
def login (s : Session) (status : Nat) (setCookie : Option String)
    (body : LoginBody) : Option LoginErr × Session :=
  let s1 := match setCookie with
    | some c => { s with sessionCookies := c }
    | none => s
  let isSuccess := status = 200 || status = 202
  if !isSuccess then
    (some (.rejected (orElseStr body.messagesHeadContent
        (orElseStr body.message "Login failed"))), s1)
  else
    let s2 := { s1 with userId := body.dataUserId, addressId := body.dataAddressId }
    if !(truthyStr s2.userId) then (some .noUserId, s2)
    else (none, s2)

/-! ## Logout (RohlikClient.js lines 220-223, through `makeRequest`) -/

/-- Cookie capture of `makeRequest` (lines 55-60): overwrite the stored
cookie header wholesale when the response carries a `set-cookie` header. -/
def applyCookie (s : Session) (setCookie : Option String) : Session :=
  match setCookie with
  | some c => { s with sessionCookies := c }
  | none => s

/-- Errors that can escape `logout()`'s `makeRequest` call. -/
inductive LogoutErr where
  | http (status : Nat)        -- `throw new Error('HTTP <status>: ...')`
  | authAfterRetry             -- `throw new Error('Unauthorized after retry')`
  | loginThrew (e : LoginErr)  -- the `this.login()` inside the retry path threw
  deriving Repr, DecidableEq

/-- Embeds `logout()` (lines 220-223) together with the session effects of
the `makeRequest` call it performs (lines 37-93).  The logout request's
first fetch answers with status `st1` and optional `set-cookie` `ck1`.  A
401/403 there triggers `this.login()` — whose response is `loginStatus`,
`loginCk`, `loginBody` and which may overwrite `userId`/`addressId` from
the re-login payload or throw — followed by exactly one retry answering
`st2`/`ck2`.  Only when `makeRequest` returns does the body run
`this.sessionCookies = ''`; every thrown error propagates with the session
as mutated so far. -/
def logout (s : Session) (st1 : Nat) (ck1 : Option String)
    (loginStatus : Nat) (loginCk : Option String) (loginBody : LoginBody)
    (st2 : Nat) (ck2 : Option String) : Option LogoutErr × Session :=
  let s1 := applyCookie s ck1
  if isAuthStatus st1 then
    match login s1 loginStatus loginCk loginBody with
    | (some e, s2) => (some (.loginThrew e), s2)
    | (none, s2) =>
      let s3 := applyCookie s2 ck2
      if isAuthStatus st2 then (some .authAfterRetry, s3)
      else if !(respOk st2) then (some (.http st2), s3)
      else (none, { s3 with sessionCookies := "" })
  else if !(respOk st1) then (some (.http st1), s1)
  else (none, { s1 with sessionCookies := "" })

/-! ## Rate limiter (RohlikClient.js lines 26-35) -/

/-- The fixed `minRequestInterval` (line 23). -/
def minRequestInterval : Int := 100

/-- One `rateLimit()` call: given the stored `lastRequestTime` and the
current clock reading `now`, compute the new `lastRequestTime`, i.e. the
dispatch time of this request.  When less than the minimum interval has
elapsed, the call sleeps for the missing `delay` milliseconds and reads the
clock again (modelled as advancing by exactly `delay`). -/
def rateLimit (lastRequestTime now : Int) : Int :=
  let timeSinceLastRequest := now - lastRequestTime
  if timeSinceLastRequest < minRequestInterval then
    let delay := minRequestInterval - timeSinceLastRequest
    now + delay
  else now

/-- Dispatch times of a run of consecutive `rateLimit()` calls: `nows` are
the clock readings at which the successive calls enter the limiter, each of
which must be at or after the previous recorded dispatch (the caller cannot
start before the previous call returned). -/
def rateLimitRun (lastRequestTime : Int) : List Int → List Int
  | [] => []
  | now :: rest =>
    let d := rateLimit lastRequestTime now
    d :: rateLimitRun d rest

/-! ## Delivery state classifier (device.js lines 210-223 and 302-320) -/

/-- One delivery announcement, with the two fields the classifier reads;
either may be missing in the upstream JSON. -/
structure Announcement where
  icon : Option String
  content : Option String
  deriving Repr, DecidableEq

/-- The derived shipment state. -/
inductive ShipmentState where
  | no_upcoming_order
  | preparing_bags
  | delivery
  deriving Repr, DecidableEq

/-- Decimal value of a run of digit characters, as `parseInt(match[1], 10)`
computes it on the captured digit string. -/
def digitsToNat (ds : List Char) : Nat :=
  ds.foldl (fun acc c => acc * 10 + (c.toNat - 48)) 0

/-- Consume the `[^>]*>` part of the pattern: skip characters up to and
including the first `>`; fail when no `>` follows.  The greedy `[^>]*`
cannot consume `>`, so the first `>` is the only place the tail of the
pattern can resume — the regex engine behaves deterministically here. -/
def skipToGt : List Char → Option (List Char)
  | [] => none
  | c :: cs => if c = '>' then some cs else skipToGt cs

/-- Attempt the pattern `<span[^>]*>(\d+)<\/span>` anchored at the head of
`cs`, yielding the numeric value of the captured digits on a match.  After
the `>`, the greedy `\d+` takes the maximal digit run; backtracking off it
never helps because shrinking the run leaves a digit, not `<`, at the
resume point, so the match succeeds exactly when at least one digit follows
the `>` and the maximal run is immediately followed by `</span>`. -/
def matchSpanAt (cs : List Char) : Option Nat :=
  if List.isPrefixOf "<span".toList cs then
    match skipToGt (cs.drop 5) with
    | none => none
    | some afterGt =>
      let digits := afterGt.takeWhile Char.isDigit
      let tail := afterGt.dropWhile Char.isDigit
      if digits ≠ [] && List.isPrefixOf "</span>".toList tail then
        some (digitsToNat digits)
      else none
  else none

/-- Leftmost match of `content.match(/<span[^>]*>(\d+)<\/span>/)`: the
engine tries each start position from the left and returns the first
success. -/
def findSpanNum : List Char → Option Nat
  | [] => none
  | c :: cs =>
    match matchSpanAt (c :: cs) with
    | some n => some n
    | none => findSpanNum cs

/-- ETA extraction for a `delivery` announcement (device.js lines 214-219
and 311-316): only when `announcement.content` is truthy, match the span
pattern; `match[1]` is a non-empty digit string, hence truthy, so a match
always sets `eta`. -/
def extractEta (content : Option String) : Nat :=
  if truthyStr content then
    match findSpanNum (content.getD "").toList with
    | some n => n
    | none => 0
  else 0

/-- The delivery-status classifier shared by `updateGeneralData` (device.js
lines 302-320) and `updateDeliveryStatusOnly` (lines 210-223): default
state `no_upcoming_order` with eta `0`; when the announcement list is
non-empty only its first element is inspected — `iconDeliveryCar` gives
`delivery` plus the parsed eta, `iconProducts` gives `preparing_bags`, any
other icon keeps the default.  A missing or falsy announcements object is
the empty list here. -/
def classifyDelivery (announcements : List Announcement) : ShipmentState × Nat :=
  match announcements with
  | [] => (.no_upcoming_order, 0)
  | announcement :: _ =>
    if announcement.icon = some "iconDeliveryCar" then
      (.delivery, extractEta announcement.content)
    else if announcement.icon = some "iconProducts" then
      (.preparing_bags, 0)
    else
      (.no_upcoming_order, 0)

/-! ## Fast delivery polling (device.js lines 187-200) -/

/-- Timer state of the device: `deliveryPollingInterval` is the instance
field holding the fast timer's id (JS `null` when unarmed); `live` lists
the interval ids created by `setInterval` and not yet passed to
`clearInterval`; `nextId` supplies fresh interval ids. -/
structure DevicePolling where
  deliveryPollingInterval : Option Nat
  live : List Nat
  nextId : Nat
  deriving Repr, DecidableEq

/-- Device state before any tick: no fast timer armed, no interval live. -/
def initialPolling : DevicePolling :=
  { deliveryPollingInterval := none, live := [], nextId := 0 }

/-- Embeds `manageDeliveryPolling(status)` (device.js lines 187-200): when
`status === 'delivery'`, arm the fast timer only if the field is unset
(`setInterval` creates a fresh live interval); otherwise clear and null the
field when it is set. -/
def manageDeliveryPolling (s : DevicePolling) (status : String) : DevicePolling :=
  if status = "delivery" then
    match s.deliveryPollingInterval with
    | none =>
      { deliveryPollingInterval := some s.nextId
        live := s.live ++ [s.nextId]
        nextId := s.nextId + 1 }
    | some _ => s
  else
    match s.deliveryPollingInterval with
    | some t =>
      { deliveryPollingInterval := none, live := s.live.erase t, nextId := s.nextId }
    | none => s

/-- A run of ticks: each general or fast tick ends by calling
`manageDeliveryPolling` with the state it derived. -/
def manageRun (s : DevicePolling) (statuses : List String) : DevicePolling :=
  statuses.foldl manageDeliveryPolling s

/-- The reachable-state invariant of the fast timer: the instance field and
the set of live intervals agree, and the field (if set) holds an id below
the fresh counter. -/
def PollInv (s : DevicePolling) : Prop :=
  (s.deliveryPollingInterval = none ∧ s.live = [])
  ∨ (∃ t, s.deliveryPollingInterval = some t ∧ s.live = [t] ∧ t < s.nextId)

/-! ## General-data tick (device.js lines 265-333 and the alternate
device source lines 175-263) -/

/-- Outcomes of the four sub-fetches of a general-data tick, in program
order: `none` means the awaited client call threw. -/
structure TickFetches where
  cart : Option (Int × Nat)
  upcoming : Option (List String)
  deliveryAnns : Option (List Announcement)
  bags : Option (Option Int)
  deriving Repr, DecidableEq

/-- Observable trace of one general-data tick: which sub-fetches were
started, how many sub-fetch failures were caught and logged inside the
tick, and whether an error propagated out of `updateGeneralData`. -/
structure TickTrace where
  cartFetched : Bool
  upcomingFetched : Bool
  annFetched : Bool
  bagsFetched : Bool
  loggedErrors : Nat
  propagated : Bool
  deriving Repr, DecidableEq

/-- Embeds `updateGeneralData` of `drivers/rohlik/device.js` (lines
265-333): after the `userId` guard, the four sub-fetches are awaited in
sequence with no try/catch anywhere in the method, so the first failure
aborts the remaining sub-fetches and the error propagates to the caller
(`updateData`, which catches at the tick boundary). -/
def updateGeneralData (userId : Option String) (f : TickFetches) : TickTrace :=
  if !(truthyStr userId) then
    { cartFetched := false, upcomingFetched := false, annFetched := false
      bagsFetched := false, loggedErrors := 0, propagated := false }
  else
    match f.cart with
    | none =>
      { cartFetched := true, upcomingFetched := false, annFetched := false
        bagsFetched := false, loggedErrors := 0, propagated := true }
    | some _ =>
      match f.upcoming with
      | none =>
        { cartFetched := true, upcomingFetched := true, annFetched := false
          bagsFetched := false, loggedErrors := 0, propagated := true }
      | some _ =>
        match f.deliveryAnns with
        | none =>
          { cartFetched := true, upcomingFetched := true, annFetched := true
            bagsFetched := false, loggedErrors := 0, propagated := true }
        | some _ =>
          match f.bags with
          | none =>
            { cartFetched := true, upcomingFetched := true, annFetched := true
              bagsFetched := true, loggedErrors := 0, propagated := true }
          | some _ =>
            { cartFetched := true, upcomingFetched := true, annFetched := true
              bagsFetched := true, loggedErrors := 0, propagated := false }

/-- Embeds `updateGeneralData` of the alternate device source (lines
175-263): the whole body sits in an outer try/catch that logs, and the
announcements and bags sub-fetches each have a dedicated inner try/catch
that logs and continues; hence an announcements failure still lets the
bags fetch run, and no error ever propagates out of the method. -/
def updateGeneralDataAlt (userId : Option String) (f : TickFetches) : TickTrace :=
  if !(truthyStr userId) then
    { cartFetched := false, upcomingFetched := false, annFetched := false
      bagsFetched := false, loggedErrors := 0, propagated := false }
  else
    match f.cart with
    | none =>
      { cartFetched := true, upcomingFetched := false, annFetched := false
        bagsFetched := false, loggedErrors := 1, propagated := false }
    | some _ =>
      match f.upcoming with
      | none =>
        { cartFetched := true, upcomingFetched := true, annFetched := false
          bagsFetched := false, loggedErrors := 1, propagated := false }
      | some _ =>
        let annLogged : Nat := if f.deliveryAnns.isNone then 1 else 0
        let bagsLogged : Nat := if f.bags.isNone then 1 else 0
        { cartFetched := true, upcomingFetched := true, annFetched := true
          bagsFetched := true, loggedErrors := annLogged + bagsLogged
          propagated := false }

/-! ## Helper lemmas -/

/-- A `makeRequest` call already running as the retry never invokes
`login()`: the `isRetry` branch throws instead of recursing. -/
lemma makeRequest_retry_login_count (loginOk : Bool) (statuses : List Nat)
    (r : ReqOutcome) (n : Nat)
    (h : makeRequest loginOk statuses true = some (r, n)) : n = 0 := by
  cases statuses with
  | nil => simp [makeRequest] at h
  | cons s rest =>
    cases ha : isAuthStatus s <;> simp [makeRequest, ha] at h
    · cases hb : respOk s <;> simp [hb] at h <;> omega
    · omega

/-- One `rateLimit()` call always records a dispatch time at least the
minimum interval after the previously recorded one. -/
lemma rateLimit_ge (lastRequestTime now : Int) :
    lastRequestTime + minRequestInterval ≤ rateLimit lastRequestTime now := by
  simp only [rateLimit, minRequestInterval]
  split <;> omega

/-- Lower bound on the final recorded dispatch time of a run of
`rateLimit()` calls. -/
lemma rateLimitRun_getLastD (nows : List Int) : ∀ lastRequestTime : Int,
    lastRequestTime + minRequestInterval * nows.length ≤
      (rateLimitRun lastRequestTime nows).getLastD lastRequestTime := by
  induction nows with
  | nil => intro l; simp [rateLimitRun]
  | cons now rest ih =>
    intro l
    simp only [rateLimitRun]
    rw [List.getLastD_cons]
    have h1 := rateLimit_ge l now
    have h2 := ih (rateLimit l now)
    have hmin : minRequestInterval = 100 := rfl
    rw [hmin] at h1 h2 ⊢
    simp only [List.length_cons]
    push_cast
    omega

/-- Arming while already armed leaves the timer state unchanged. -/
lemma manage_arm_idem (s : DevicePolling)
    (h : s.deliveryPollingInterval.isSome = true) :
    manageDeliveryPolling s "delivery" = s := by
  obtain ⟨t, ht⟩ := Option.isSome_iff_exists.mp h
  simp [manageDeliveryPolling, ht]

/-- After one `manageDeliveryPolling` call the field is set exactly when the
status was `delivery`. -/
lemma manage_armed (s : DevicePolling) (st : String) :
    (manageDeliveryPolling s st).deliveryPollingInterval.isSome = true ↔
      st = "delivery" := by
  by_cases hst : st = "delivery" <;>
    cases hf : s.deliveryPollingInterval <;>
      simp [manageDeliveryPolling, hst, hf]

/-- `manageDeliveryPolling` preserves the timer invariant. -/
lemma manage_inv (s : DevicePolling) (st : String) (h : PollInv s) :
    PollInv (manageDeliveryPolling s st) := by
  rcases h with ⟨hnone, hlive⟩ | ⟨t, hsome, hlive, hlt⟩
  · by_cases hst : st = "delivery"
    · refine Or.inr ⟨s.nextId, ?_, ?_, ?_⟩ <;>
        simp [manageDeliveryPolling, hst, hnone, hlive]
    · exact Or.inl ⟨by simp [manageDeliveryPolling, hst, hnone], by
        simp [manageDeliveryPolling, hst, hnone, hlive]⟩
  · by_cases hst : st = "delivery"
    · exact Or.inr ⟨t, by simp [manageDeliveryPolling, hst, hsome], by
        simp [manageDeliveryPolling, hst, hsome, hlive], by
        simp [manageDeliveryPolling, hst, hsome]; omega⟩
    · refine Or.inl ⟨by simp [manageDeliveryPolling, hst, hsome], ?_⟩
      simp [manageDeliveryPolling, hst, hsome, hlive]

/-- `manageRun` preserves the timer invariant. -/
lemma manageRun_inv (statuses : List String) : ∀ s : DevicePolling,
    PollInv s → PollInv (manageRun s statuses) := by
  induction statuses with
  | nil => intro s h; exact h
  | cons st rest ih =>
    intro s h
    exact ih (manageDeliveryPolling s st) (manage_inv s st h)

/-- After a non-empty run of ticks, the fast timer is armed exactly when
the last derived status was `delivery`. -/
lemma manageRun_armed_iff (rest : List String) : ∀ (s : DevicePolling) (st : String),
    (manageRun s (st :: rest)).deliveryPollingInterval.isSome = true ↔
      (st :: rest).getLast? = some "delivery" := by
  induction rest with
  | nil =>
    intro s st
    have h := manage_armed s st
    simpa [manageRun] using h
  | cons r rs ih =>
    intro s st
    rw [List.getLast?_cons_cons]
    exact ih (manageDeliveryPolling s st) r

/-- Republishing the value just stored for a sink finds it unchanged. -/
lemma getCapabilityValue_set (store : List (String × CapValue)) (cap : String)
    (v : CapValue) :
    getCapabilityValue (setCapabilityValue store cap v) cap = v := by
  simp [getCapabilityValue, setCapabilityValue, List.lookup]

/-- When the span pattern finds no numeral, the extracted eta is `0`. -/
lemma extractEta_none (content : Option String)
    (h : findSpanNum (content.getD "").toList = none) : extractEta content = 0 := by
  unfold extractEta
  split
  · rw [h]
  · rfl

/-! ## Claim theorems -/

/-- C1: a first attempt answered 401/403 triggers exactly one full login
cycle and exactly one retry of the same call; when the retry again yields
401/403 the executor fails with the auth error, and no execution of
`makeRequest` started as a fresh call ever performs more than one login. -/
theorem makeRequest_auth_retry (s1 s2 : Nat) (rest : List Nat)
    (h : isAuthStatus s1 = true) :
    makeRequest true (s1 :: s2 :: rest) false =
      some ((if isAuthStatus s2 then ReqOutcome.authError
             else if respOk s2 then ReqOutcome.success s2
             else ReqOutcome.httpError s2), 1)
    ∧ (isAuthStatus s2 = true →
        makeRequest true (s1 :: s2 :: rest) false = some (ReqOutcome.authError, 1))
    ∧ ∀ (loginOk : Bool) (statuses : List Nat) (r : ReqOutcome) (n : Nat),
        makeRequest loginOk statuses false = some (r, n) → n ≤ 1 := by
  refine ⟨?_, ?_, ?_⟩
  · cases hb : isAuthStatus s2 <;> cases hc : respOk s2 <;>
      simp [makeRequest, h, hb, hc]
  · intro hb
    simp [makeRequest, h, hb]
  · intro loginOk statuses r n hmr
    cases statuses with
    | nil => simp [makeRequest] at hmr
    | cons s rest2 =>
      by_cases ha : isAuthStatus s
      · cases loginOk with
        | false => simp [makeRequest, ha] at hmr; omega
        | true =>
          cases hm : makeRequest true rest2 true with
          | none => simp [makeRequest, ha, hm] at hmr
          | some p =>
            obtain ⟨o, m⟩ := p
            have hm0 : m = 0 := makeRequest_retry_login_count true rest2 o m hm
            simp [makeRequest, ha, hm] at hmr
            omega
      · cases hb : respOk s <;> simp [makeRequest, ha, hb] at hmr <;> omega

/-- Witness for C1: first fetch 403, retry 403 — outcome is the auth error
after exactly one login. -/
theorem makeRequest_auth_retry_witness :
    makeRequest true [403, 403] false = some (ReqOutcome.authError, 1) :=
  (makeRequest_auth_retry 403 403 [] (by decide)).2.1 (by decide)

/-- C2: an empty announcement list classifies as `no_upcoming_order` with
eta 0; a first announcement with icon `iconDeliveryCar` classifies as
`delivery` with the eta extracted from its content by the span-digit
pattern (0 when no numeral is found); icon `iconProducts` gives
`preparing_bags` with eta 0; any other icon gives `no_upcoming_order` with
eta 0; the tail of the list never influences the result; and the spec's
concrete examples evaluate as stated. -/
theorem classifyDelivery_spec (a : Announcement) (l l1 l2 : List Announcement) :
    classifyDelivery [] = (ShipmentState.no_upcoming_order, 0)
    ∧ (a.icon = some "iconDeliveryCar" →
        classifyDelivery (a :: l) = (ShipmentState.delivery, extractEta a.content))
    ∧ (a.icon = some "iconDeliveryCar" →
        findSpanNum (a.content.getD "").toList = none →
        classifyDelivery (a :: l) = (ShipmentState.delivery, 0))
    ∧ (a.icon = some "iconProducts" →
        classifyDelivery (a :: l) = (ShipmentState.preparing_bags, 0))
    ∧ (a.icon ≠ some "iconDeliveryCar" → a.icon ≠ some "iconProducts" →
        classifyDelivery (a :: l) = (ShipmentState.no_upcoming_order, 0))
    ∧ classifyDelivery (a :: l1) = classifyDelivery (a :: l2)
    ∧ classifyDelivery [⟨some "iconDeliveryCar", some "<span>7</span>"⟩] =
        (ShipmentState.delivery, 7)
    ∧ classifyDelivery [⟨some "iconProducts", none⟩] =
        (ShipmentState.preparing_bags, 0) := by
  refine ⟨rfl, ?_, ?_, ?_, ?_, rfl, by decide, rfl⟩
  · intro h; simp [classifyDelivery, h]
  · intro h h2
    simp [classifyDelivery, h, extractEta_none a.content h2]
  · intro h; simp [classifyDelivery, h]
  · intro h1 h2; simp [classifyDelivery, h1, h2]

/-- Witness for C2: the courier-in-transit and packing examples, with the
hypotheses discharged at concrete announcements. -/
theorem classifyDelivery_spec_witness :
    classifyDelivery [⟨some "iconProducts", none⟩] =
        (ShipmentState.preparing_bags, 0)
    ∧ classifyDelivery [⟨some "iconDeliveryCar", some "<span>7</span>"⟩] =
        (ShipmentState.delivery, extractEta (some "<span>7</span>")) :=
  ⟨(classifyDelivery_spec ⟨some "iconProducts", none⟩ [] [] []).2.2.2.1 rfl,
   (classifyDelivery_spec ⟨some "iconDeliveryCar", some "<span>7</span>"⟩
      [] [] []).2.1 rfl⟩

/-- C3: every `rateLimit()` call suspends until at least the minimum
interval (100 ms) after the previously recorded dispatch time and then
records its own dispatch time, so over any run of N consecutive calls the
recorded dispatch times of the first and the last call differ by at least
(N-1) times the minimum interval. -/
theorem rateLimit_spec (lastRequestTime now : Int) (rest : List Int) :
    (∀ l n : Int, l + minRequestInterval ≤ rateLimit l n)
    ∧ minRequestInterval * rest.length ≤
        (rateLimitRun lastRequestTime (now :: rest)).getLastD
            (rateLimit lastRequestTime now)
          - rateLimit lastRequestTime now := by
  constructor
  · exact rateLimit_ge
  · simp only [rateLimitRun]
    rw [List.getLastD_cons]
    have h := rateLimitRun_getLastD rest (rateLimit lastRequestTime now)
    have hmin : minRequestInterval = 100 := rfl
    rw [hmin] at h ⊢
    omega

/-- C4 counterexample: in `updateGeneralData` of `drivers/rohlik/device.js`
a failing delivery-announcements fetch (with the cart and upcoming fetches
succeeding) leaves the bag-balance sub-fetch unexecuted and propagates the
error out of the method, so the tick's sub-fetches are not isolated. -/
theorem updateGeneralData_no_isolation_cex :
    (updateGeneralData (some "user")
        { cart := some (0, 0), upcoming := some [], deliveryAnns := none
          bags := some (some 3) }).bagsFetched = false
    ∧ (updateGeneralData (some "user")
        { cart := some (0, 0), upcoming := some [], deliveryAnns := none
          bags := some (some 3) }).propagated = true := by
  decide

/-- C4 (amended): in the `device.js` version of `updateGeneralData` a
failing announcements sub-fetch aborts the bags sub-fetch and the error
propagates out of the method (to be caught only at the tick boundary in
`updateData`); the claimed isolation of the announcements and bags
sub-fetches holds in the alternate device source's `updateGeneralData`,
where each of the two has a dedicated catch block that logs and continues
and no error propagates out. -/
theorem updateGeneralData_isolation_amended (userId : Option String)
    (f : TickFetches) (hu : truthyStr userId = true) :
    (f.cart.isSome = true → f.upcoming.isSome = true → f.deliveryAnns = none →
      (updateGeneralData userId f).bagsFetched = false
      ∧ (updateGeneralData userId f).propagated = true)
    ∧ (f.cart.isSome = true → f.upcoming.isSome = true →
      (updateGeneralDataAlt userId f).annFetched = true
      ∧ (updateGeneralDataAlt userId f).bagsFetched = true
      ∧ (updateGeneralDataAlt userId f).propagated = false) := by
  obtain ⟨fc, fu, fa, fb⟩ := f
  constructor
  · intro hc hup ha
    obtain ⟨c, rfl⟩ := Option.isSome_iff_exists.mp hc
    obtain ⟨u, rfl⟩ := Option.isSome_iff_exists.mp hup
    subst ha
    simp [updateGeneralData, hu]
  · intro hc hup
    obtain ⟨c, rfl⟩ := Option.isSome_iff_exists.mp hc
    obtain ⟨u, rfl⟩ := Option.isSome_iff_exists.mp hup
    simp [updateGeneralDataAlt, hu]

/-- Witness for C4 (amended): concrete tick with a failing announcements
fetch — `device.js` skips bags and propagates, the alternate source still
runs both and propagates nothing. -/
theorem updateGeneralData_isolation_amended_witness :
    ((updateGeneralData (some "u")
        { cart := some (1, 2), upcoming := some [], deliveryAnns := none
          bags := some (some 3) }).bagsFetched = false
      ∧ (updateGeneralData (some "u")
        { cart := some (1, 2), upcoming := some [], deliveryAnns := none
          bags := some (some 3) }).propagated = true)
    ∧ ((updateGeneralDataAlt (some "u")
        { cart := some (1, 2), upcoming := some [], deliveryAnns := none
          bags := some (some 3) }).annFetched = true
      ∧ (updateGeneralDataAlt (some "u")
        { cart := some (1, 2), upcoming := some [], deliveryAnns := none
          bags := some (some 3) }).bagsFetched = true
      ∧ (updateGeneralDataAlt (some "u")
        { cart := some (1, 2), upcoming := some [], deliveryAnns := none
          bags := some (some 3) }).propagated = false) :=
  ⟨(updateGeneralData_isolation_amended (some "u")
      { cart := some (1, 2), upcoming := some [], deliveryAnns := none
        bags := some (some 3) } (by decide)).1 (by decide) (by decide) rfl,
   (updateGeneralData_isolation_amended (some "u")
      { cart := some (1, 2), upcoming := some [], deliveryAnns := none
        bags := some (some 3) } (by decide)).2 (by decide) (by decide)⟩

/-- C5 counterexample: a logout whose request is answered 200 completes,
yet the session still carries the user and address identifiers — the
session is not returned to the created-empty state. -/
theorem logout_keeps_ids_cex :
    (logout { sessionCookies := "c", userId := some "42", addressId := some "7" }
        200 none 200 none ⟨none, none, none, none⟩ 200 none).1 = none
    ∧ (logout { sessionCookies := "c", userId := some "42", addressId := some "7" }
        200 none 200 none ⟨none, none, none, none⟩ 200 none).2.userId = some "42"
    ∧ (logout { sessionCookies := "c", userId := some "42", addressId := some "7" }
        200 none 200 none ⟨none, none, none, none⟩ 200 none).2.addressId = some "7"
    ∧ (logout { sessionCookies := "c", userId := some "42", addressId := some "7" }
        200 none 200 none ⟨none, none, none, none⟩ 200 none).2 ≠ initialSession := by
  decide

/-- C5 (amended): a completing `logout()` always leaves the cookie header
empty, but never clears the identifiers to the created-empty state: on a
direct 2xx logout response the stored user and address identifiers are
unchanged, and when a 401/403 logout response triggers the re-login path
the identifiers afterwards come from the re-login payload; only client
reconstruction (the constructor) yields the created-empty state. -/
theorem logout_cookie_clear_spec (s : Session) (st1 : Nat) (ck1 : Option String)
    (lst : Nat) (lck : Option String) (body : LoginBody)
    (st2 : Nat) (ck2 : Option String) :
    ((logout s st1 ck1 lst lck body st2 ck2).1 = none →
      (logout s st1 ck1 lst lck body st2 ck2).2.sessionCookies = "")
    ∧ (isAuthStatus st1 = false → respOk st1 = true →
      logout s st1 ck1 lst lck body st2 ck2 =
        (none, { sessionCookies := "", userId := s.userId, addressId := s.addressId }))
    ∧ (isAuthStatus st1 = true → (lst = 200 ∨ lst = 202) →
      truthyStr body.dataUserId = true →
      isAuthStatus st2 = false → respOk st2 = true →
      (logout s st1 ck1 lst lck body st2 ck2).1 = none
      ∧ (logout s st1 ck1 lst lck body st2 ck2).2.userId = body.dataUserId
      ∧ (logout s st1 ck1 lst lck body st2 ck2).2.addressId = body.dataAddressId)
    ∧ initialSession.sessionCookies = ""
    ∧ initialSession.userId = none
    ∧ initialSession.addressId = none := by
  refine ⟨?_, ?_, ?_, rfl, rfl, rfl⟩
  · intro hdone
    by_cases h1 : isAuthStatus st1
    · rcases hl : login (applyCookie s ck1) lst lck body with ⟨oe, s2⟩
      cases oe with
      | some e => simp [logout, h1, hl] at hdone
      | none =>
        by_cases h2 : isAuthStatus st2
        · simp [logout, h1, hl, h2] at hdone
        · by_cases h3 : respOk st2
          · simp [logout, h1, hl, h2, h3]
          · simp [logout, h1, hl, h2, h3] at hdone
    · by_cases h3 : respOk st1
      · simp [logout, h1, h3]
      · simp [logout, h1, h3] at hdone
  · intro h1 h3
    cases ck1 <;> simp [logout, applyCookie, h1, h3]
  · intro h1 hl hu h2 h3
    have hlogin : (login (applyCookie s ck1) lst lck body).1 = none
        ∧ (login (applyCookie s ck1) lst lck body).2.userId = body.dataUserId
        ∧ (login (applyCookie s ck1) lst lck body).2.addressId = body.dataAddressId := by
      rcases hl with rfl | rfl <;> cases lck <;> simp [login, hu]
    rcases hll : login (applyCookie s ck1) lst lck body with ⟨oe, s2⟩
    rw [hll] at hlogin
    cases oe with
    | some e => simp at hlogin
    | none =>
      have hid : s2.userId = body.dataUserId := hlogin.2.1
      have had : s2.addressId = body.dataAddressId := hlogin.2.2
      refine ⟨?_, ?_, ?_⟩ <;> simp only [logout, h1, hll, h2, h3] <;>
        cases ck2 <;> simp [applyCookie, hid, had]

/-- Witness for C5 (amended): a direct 200 logout leaves the ids of a
populated session unchanged with the cookie cleared; a 401 logout that
re-logs-in as user "9" completes with the re-login payload's ids. -/
theorem logout_cookie_clear_spec_witness :
    logout { sessionCookies := "c", userId := some "1", addressId := some "2" }
        200 none 200 none ⟨none, none, some "9", none⟩ 200 none =
      (none, { sessionCookies := "", userId := some "1", addressId := some "2" })
    ∧ (logout { sessionCookies := "c", userId := some "1", addressId := some "2" }
        401 (some "k") 200 none ⟨none, none, some "9", none⟩ 200 none).2.userId
        = some "9" :=
  ⟨(logout_cookie_clear_spec
      { sessionCookies := "c", userId := some "1", addressId := some "2" }
      200 none 200 none ⟨none, none, some "9", none⟩ 200 none).2.1
      (by decide) (by decide),
   ((logout_cookie_clear_spec
      { sessionCookies := "c", userId := some "1", addressId := some "2" }
      401 (some "k") 200 none ⟨none, none, some "9", none⟩ 200 none).2.2.1
      (by decide) (Or.inl rfl) (by decide) (by decide) (by decide)).2.1⟩

/-- C6: publishing a value equal to the sink's current value performs no
downstream write; publishing a value that differs and then the same value
again performs exactly one downstream write in total, and the second of
two consecutive publishes of the same value never writes. -/
theorem updateCapabilityValue_write_if_changed
    (store : List (String × CapValue)) (cap : String) (v : CapValue) :
    (getCapabilityValue store cap = v → updateCapabilityValue store cap v = (store, 0))
    ∧ (getCapabilityValue store cap ≠ v →
        (updateCapabilityValue store cap v).2
          + (updateCapabilityValue (updateCapabilityValue store cap v).1 cap v).2 = 1)
    ∧ (updateCapabilityValue (updateCapabilityValue store cap v).1 cap v).2 = 0 := by
  by_cases h : getCapabilityValue store cap = v
  · refine ⟨fun _ => by simp [updateCapabilityValue, h], fun hne => absurd h hne, ?_⟩
    simp [updateCapabilityValue, h]
  · refine ⟨fun he => absurd he h, fun _ => ?_, ?_⟩ <;>
      simp [updateCapabilityValue, h, getCapabilityValue_set]

/-- Witness for C6: a fresh numeric sink — publishing 5 twice writes once
in total, and republishing the stored value writes nothing. -/
theorem updateCapabilityValue_write_if_changed_witness :
    (updateCapabilityValue [] "measure_cart_total" (CapValue.num 5)).2
      + (updateCapabilityValue
          (updateCapabilityValue [] "measure_cart_total" (CapValue.num 5)).1
          "measure_cart_total" (CapValue.num 5)).2 = 1
    ∧ updateCapabilityValue [("measure_cart_total", CapValue.num 5)]
        "measure_cart_total" (CapValue.num 5) = ([("measure_cart_total", CapValue.num 5)], 0) :=
  ⟨(updateCapabilityValue_write_if_changed [] "measure_cart_total"
      (CapValue.num 5)).2.1 (by decide),
   (updateCapabilityValue_write_if_changed [("measure_cart_total", CapValue.num 5)]
      "measure_cart_total" (CapValue.num 5)).1 (by decide)⟩

/-- C7: starting from the unarmed device state, after any run of ticks at
most one fast timer interval is live; after a non-empty run the fast timer
is armed exactly when the last derived status was `delivery`; arming while
already armed changes nothing; and any status other than `delivery`
disarms, leaving no live interval (given the reachable-state invariant). -/
theorem manageDeliveryPolling_fast_timer (statuses : List String)
    (s : DevicePolling) (st : String) :
    (manageRun initialPolling statuses).live.length ≤ 1
    ∧ (statuses ≠ [] →
        ((manageRun initialPolling statuses).deliveryPollingInterval.isSome = true ↔
          statuses.getLast? = some "delivery"))
    ∧ (s.deliveryPollingInterval.isSome = true →
        manageDeliveryPolling s "delivery" = s)
    ∧ (PollInv s → st ≠ "delivery" →
        (manageDeliveryPolling s st).deliveryPollingInterval = none
        ∧ (manageDeliveryPolling s st).live = []) := by
  refine ⟨?_, ?_, manage_arm_idem s, ?_⟩
  · have hinv := manageRun_inv statuses initialPolling (Or.inl ⟨rfl, rfl⟩)
    rcases hinv with ⟨-, hlive⟩ | ⟨t, -, hlive, -⟩ <;> simp [hlive]
  · intro hne
    cases statuses with
    | nil => cases hne rfl
    | cons st0 rest => exact manageRun_armed_iff rest initialPolling st0
  · intro hinv hst
    rcases hinv with ⟨hnone, hlive⟩ | ⟨t, hsome, hlive, -⟩
    · constructor <;> simp [manageDeliveryPolling, hst, hnone, hlive]
    · constructor <;> simp [manageDeliveryPolling, hst, hsome, hlive]

/-- Witness for C7: two consecutive `delivery` ticks leave exactly the one
timer armed; a `preparing_bags` tick on an armed reachable state disarms
it with no live interval left. -/
theorem manageDeliveryPolling_fast_timer_witness :
    ((manageRun initialPolling ["delivery", "delivery"]).deliveryPollingInterval.isSome
        = true ↔ (["delivery", "delivery"] : List String).getLast? = some "delivery")
    ∧ manageDeliveryPolling
        { deliveryPollingInterval := some 0, live := [0], nextId := 1 } "delivery"
        = { deliveryPollingInterval := some 0, live := [0], nextId := 1 }
    ∧ (manageDeliveryPolling
        { deliveryPollingInterval := some 0, live := [0], nextId := 1 }
        "preparing_bags").deliveryPollingInterval = none :=
  ⟨(manageDeliveryPolling_fast_timer ["delivery", "delivery"] initialPolling "x").2.1
      (by simp),
   (manageDeliveryPolling_fast_timer [] { deliveryPollingInterval := some 0, live := [0], nextId := 1 } "x").2.2.1 rfl,
   ((manageDeliveryPolling_fast_timer []
        { deliveryPollingInterval := some 0, live := [0], nextId := 1 }
        "preparing_bags").2.2.2
      (Or.inr ⟨0, rfl, rfl, by decide⟩) (by decide)).1⟩

/-- C8: removal by product id resolves against a fresh cart read: when the
cart has a line whose product id matches, the first such line's cart line
id is the target of exactly one delete call; when no line matches, the
action fails with the not-found error and issues no delete call. -/
theorem onFlowActionRemoveItemById_spec (cartItems : List CartItem)
    (product_id : String) (item : CartItem) (hp : product_id ≠ "") :
    (cartItems.find? (fun i => i.id = product_id) = some item →
      onFlowActionRemoveItemById cartItems product_id =
        (Except.ok (), [item.cart_item_id]))
    ∧ ((∀ i ∈ cartItems, i.id ≠ product_id) →
      onFlowActionRemoveItemById cartItems product_id =
        (Except.error RemoveErr.notFound, [])) := by
  constructor
  · intro hf
    simp [onFlowActionRemoveItemById, hp, hf]
  · intro hall
    have hnone : cartItems.find? (fun i => i.id = product_id) = none :=
      List.find?_eq_none.mpr (fun x hx => by simpa using hall x hx)
    simp [onFlowActionRemoveItemById, hp, hnone]

/-- Witness for C8: the spec's example cart — removing product "10"
resolves to line "99" with one delete call, removing product "11" fails
with no delete call. -/
theorem onFlowActionRemoveItemById_spec_witness :
    onFlowActionRemoveItemById [⟨"10", "99"⟩] "10" = (Except.ok (), ["99"])
    ∧ onFlowActionRemoveItemById [⟨"10", "99"⟩] "11" =
        (Except.error RemoveErr.notFound, []) :=
  ⟨(onFlowActionRemoveItemById_spec [⟨"10", "99"⟩] "10" ⟨"10", "99"⟩
      (by decide)).1 (by decide),
   (onFlowActionRemoveItemById_spec [⟨"10", "99"⟩] "11" ⟨"10", "99"⟩
      (by decide)).2 (by decide)⟩

/-- C9: an accepted login status (200 or 202) with a truthy user id in the
payload succeeds and stores the payload's user id and address id; a
non-accepted status fails carrying the upstream message; an accepted
status without a truthy user id fails with the missing-user-id error
rather than succeeding silently. -/
theorem login_spec (s : Session) (status : Nat) (ck : Option String)
    (body : LoginBody) :
    ((status = 200 ∨ status = 202) → truthyStr body.dataUserId = true →
      (login s status ck body).1 = none
      ∧ (login s status ck body).2.userId = body.dataUserId
      ∧ (login s status ck body).2.addressId = body.dataAddressId)
    ∧ (status ≠ 200 → status ≠ 202 →
      (login s status ck body).1 = some (LoginErr.rejected
        (orElseStr body.messagesHeadContent (orElseStr body.message "Login failed"))))
    ∧ ((status = 200 ∨ status = 202) → truthyStr body.dataUserId = false →
      (login s status ck body).1 = some LoginErr.noUserId) := by
  refine ⟨?_, ?_, ?_⟩
  · intro hst hu
    rcases hst with rfl | rfl <;> cases ck <;> simp [login, hu]
  · intro h1 h2
    cases ck <;> simp [login, h1, h2]
  · intro hst hu
    rcases hst with rfl | rfl <;> cases ck <;> simp [login, hu]

/-- Witness for C9: a 200 response with user id 42 succeeds and stores the
ids; a 401 response fails with the upstream message; a 202 response with
no user id fails with the missing-user-id error. -/
theorem login_spec_witness :
    ((login initialSession 200 (some "ck")
        ⟨none, none, some "42", some "7"⟩).1 = none
      ∧ (login initialSession 200 (some "ck")
          ⟨none, none, some "42", some "7"⟩).2.userId = some "42"
      ∧ (login initialSession 200 (some "ck")
          ⟨none, none, some "42", some "7"⟩).2.addressId = some "7")
    ∧ (login initialSession 401 none
        ⟨some "bad creds", none, none, none⟩).1 =
          some (LoginErr.rejected (orElseStr (some "bad creds")
            (orElseStr none "Login failed")))
    ∧ (login initialSession 202 none
        ⟨none, none, none, some "7"⟩).1 = some LoginErr.noUserId :=
  ⟨(login_spec initialSession 200 (some "ck")
      ⟨none, none, some "42", some "7"⟩).1 (Or.inl rfl) (by decide),
   (login_spec initialSession 401 none
      ⟨some "bad creds", none, none, none⟩).2.1 (by decide) (by decide),
   (login_spec initialSession 202 none
      ⟨none, none, none, some "7"⟩).2.2 (Or.inr rfl) (by decide)⟩

/-- C10: a missing country code, or one whose upper-cased form is not in
the table, silently selects the CZ base URL; a code in the table
(case-insensitively) selects the matching mirror domain, as the
enumerated concrete lookups show. -/
theorem baseUrlFor_spec (c : String) :
    baseUrlFor none = "https://www.rohlik.cz"
    ∧ (COUNTRY_URLS (toUpperCase c) = none →
        baseUrlFor (some c) = "https://www.rohlik.cz")
    ∧ (∀ u, COUNTRY_URLS (toUpperCase c) = some u → baseUrlFor (some c) = u)
    ∧ baseUrlFor (some "cz") = "https://www.rohlik.cz"
    ∧ baseUrlFor (some "de") = "https://www.knuspr.de"
    ∧ baseUrlFor (some "At") = "https://www.gurkerl.at"
    ∧ baseUrlFor (some "hu") = "https://www.kifli.hu"
    ∧ baseUrlFor (some "RO") = "https://www.sezamo.ro"
    ∧ baseUrlFor (some "XX") = "https://www.rohlik.cz"
    ∧ baseUrlFor (some "") = "https://www.rohlik.cz" := by
  refine ⟨rfl, ?_, ?_, by decide, by decide, by decide, by decide, by decide,
    by decide, by decide⟩
  · intro h; simp [baseUrlFor, h]
  · intro u h; simp [baseUrlFor, h]

/-- Witness for C10: the German mirror is selected for the lower-case code
"de", via the table lookup discharged concretely. -/
theorem baseUrlFor_spec_witness :
    baseUrlFor (some "de") = "https://www.knuspr.de" :=
  (baseUrlFor_spec "de").2.2.1 "https://www.knuspr.de" (by decide)

end Rohlik
